import Mathlib

/-!
Shallow embedding of the chat session controller and message renderer of
`src/src/pages/Home.tsx` (a single-page customer-support chat widget).

The stateful React component `Home` is modelled as explicit state passing:
`SessionState` captures the four `useState` cells (`messages`, `input`,
`loading`, `error`); `handleSend` is split at its unique suspension point
(the `await callAIAgent(...)`) into the synchronous phase `handleSend1`
(everything up to and including dispatching the outbound call) and the
resolution phase `handleSendResolve` (the three continuation paths:
success envelope, non-success envelope, rejection).  `Date.now()` and
`new Date()` are modelled by an explicit natural-number clock argument.
JavaScript truthiness of optional strings (`a || b`) is modelled by
`jsOrText` / `jsStrOr` (the empty string is falsy), and `Math.round` on a
fraction by `jsRound` over `ℚ`.
-/

set_option autoImplicit false

namespace SupportChat

/-- Role of a chat message: the `'user' | 'agent'` union of the `Message`
interface. -/
inductive Role where
  | user : Role
  | agent : Role
deriving DecidableEq, Repr

/-- The `Message` interface of `Home.tsx` (lines 34-43): identifier, role,
text content, creation timestamp (milliseconds, `Date` modelled as `Nat`),
and the four optional agent-metadata fields.  `sources` is `any[]` in the
source and is kept as an opaque passthrough, modelled as a list of strings. -/
structure Message where
  id : String
  role : Role
  content : String
  timestamp : Nat
  confidence : Option ℚ
  sources : Option (List String)
  followUpQuestions : Option (List String)
  requiresEscalation : Option Bool
deriving DecidableEq, Repr

/-- The `AgentResult` interface (lines 17-23): the payload of a successful
agent response. -/
structure AgentResult where
  answer : String
  sources : List String
  confidence : ℚ
  follow_up_questions : List String
  requires_escalation : Bool
deriving DecidableEq, Repr

/-- The session state held by the `Home` component: the four `useState`
cells `messages`, `input`, `loading` and `error`. -/
structure SessionState where
  messages : List Message
  input : String
  loading : Bool
  error : Option String
deriving DecidableEq, Repr

/-- Settlement of the outbound `callAIAgent` promise.  `resolved` carries
the fields the code consumes from the normalized value: `result.success`,
`result.response.status`, `result.response.message`,
`result.response.result` (required by the local `AgentResponse` interface)
and `result.error`.  `rejected` is the promise rejecting (the `catch`
path). -/
inductive CallOutcome where
  | resolved (success : Bool) (status : String) (message : Option String)
      (result : AgentResult) (errField : Option String) : CallOutcome
  | rejected : CallOutcome
deriving DecidableEq, Repr

/-- JavaScript `String.prototype.trim`: remove whitespace from both ends
of the string.  Modelled directly over the character list so that it is
kernel-computable. -/
def jsTrim (s : String) : String :=
  ⟨((s.data.dropWhile Char.isWhitespace).reverse.dropWhile Char.isWhitespace).reverse⟩

/-- JavaScript `messageText || input.trim()` (line 177): an `undefined` or
empty explicit argument is falsy and falls through to the trimmed pending
input. -/
def jsOrText (messageText : Option String) (fallback : String) : String :=
  match messageText with
  | some t => if t = "" then fallback else t
  | none => fallback

/-- JavaScript `a || b` on a possibly-undefined string `a` (line 215): an
absent or empty string falls through to `b`. -/
def jsStrOr (a : Option String) (b : String) : String :=
  match a with
  | some s => if s = "" then b else s
  | none => b

/-- JavaScript `Math.round` on a fraction: round half up, `⌊x + 1/2⌋`. -/
def jsRound (q : ℚ) : ℤ :=
  ⌊q + 1 / 2⌋

/-- The starter questions `STARTER_QUESTIONS` (lines 46-51). -/
def STARTER_QUESTIONS : List String :=
  ["How can I track my order?",
   "What are your business hours?",
   "Tell me about your services",
   "How do I reset my password?"]

/-- The welcome message installed by the mount effect (lines 163-174). -/
def welcomeMessage (now : Nat) : Message :=
  { id := "welcome"
  , role := Role.agent
  , content := "Hello! I\x27m your customer support assistant. How can I help you today?"
  , timestamp := now
  , confidence := some 1
  , sources := none
  , followUpQuestions := some STARTER_QUESTIONS
  , requiresEscalation := some false }

/-- The component state right after mount: the welcome message alone,
empty input, not loading, no error (lines 150-153 and 163-174). -/
def initSession (now : Nat) : SessionState :=
  { messages := [welcomeMessage now]
  , input := ""
  , loading := false
  , error := none }

/-- The user message appended on send (lines 186-191): id is
`Date.now().toString()`, content is the effective text, metadata absent. -/
def userMessageOf (text : String) (now : Nat) : Message :=
  { id := toString now
  , role := Role.user
  , content := text
  , timestamp := now
  , confidence := none
  , sources := none
  , followUpQuestions := none
  , requiresEscalation := none }

/-- Synchronous phase of `handleSend` (lines 176-197): compute
`textToSend = messageText || input.trim()`, return unchanged on the guard
`!textToSend || loading`, otherwise clear input and error, append the user
message, set loading, and dispatch the call.  The second component is the
text of the outbound call (`none` when no call is issued). -/
def handleSend1 (s : SessionState) (messageText : Option String) (now : Nat) :
    SessionState × Option String :=
  let textToSend := jsOrText messageText (jsTrim s.input)
  if textToSend = "" ∨ s.loading then (s, none)
  else
    ({ messages := s.messages ++ [userMessageOf textToSend now]
     , input := ""
     , loading := true
     , error := none }, some textToSend)

/-- The agent message built on the success path (lines 203-212): payload
fields carried over 1:1, id `(Date.now() + 1).toString()`. -/
def agentMessageOf (result : AgentResult) (now : Nat) : Message :=
  { id := toString (now + 1)
  , role := Role.agent
  , content := result.answer
  , timestamp := now
  , confidence := some result.confidence
  , sources := some result.sources
  , followUpQuestions := some result.follow_up_questions
  , requiresEscalation := some result.requires_escalation }

/-- The fixed apology text of the envelope-error message (line 221). -/
def apologyText : String :=
  "I\x27m sorry, I encountered an error. Please try again or contact support if the issue persists."

/-- The fixed text of the transport-failure message (line 233). -/
def troubleText : String :=
  "I\x27m having trouble connecting right now. Please check your internet connection and try again."

/-- The synthetic agent message appended on the envelope-error path
(lines 218-224): apology text, escalation forced true, no metadata. -/
def apologyMessage (now : Nat) : Message :=
  { id := toString (now + 1)
  , role := Role.agent
  , content := apologyText
  , timestamp := now
  , confidence := none
  , sources := none
  , followUpQuestions := none
  , requiresEscalation := some true }

/-- The synthetic agent message appended on the transport-failure path
(lines 230-236): trouble-connecting text, escalation forced true, no
metadata. -/
def troubleMessage (now : Nat) : Message :=
  { id := toString (now + 1)
  , role := Role.agent
  , content := troubleText
  , timestamp := now
  , confidence := none
  , sources := none
  , followUpQuestions := none
  , requiresEscalation := some true }

/-- Resolution phase of `handleSend` (lines 197-240): the success branch
(`result.success && result.response.status === 'success'`) appends the
mapped agent message; the else branch sets the error to
`response.message || result.error || 'Failed to get response'` and appends
the apology message; the catch branch sets `'Network error occurred'` and
appends the trouble-connecting message; the `finally` clears loading on
every path. -/
def handleSendResolve (s : SessionState) (outcome : CallOutcome) (now : Nat) :
    SessionState :=
  match outcome with
  | CallOutcome.resolved success status message result errField =>
    if success = true ∧ status = "success" then
      { s with
        messages := s.messages ++ [agentMessageOf result now]
      , loading := false }
    else
      { s with
        error := some (jsStrOr message (jsStrOr errField "Failed to get response"))
      , messages := s.messages ++ [apologyMessage now]
      , loading := false }
  | CallOutcome.rejected =>
    { s with
      error := some "Network error occurred"
    , messages := s.messages ++ [troubleMessage now]
    , loading := false }

/-- `handleQuickReply` (lines 243-245): exactly `handleSend(question)`. -/
def handleQuickReply (s : SessionState) (question : String) (now : Nat) :
    SessionState × Option String :=
  handleSend1 s (some question) now

/-- One complete send cycle: the synchronous phase, then — only if a call
was actually dispatched — the resolution phase at the settlement time. -/
def sendCycle (s : SessionState) (messageText : Option String) (tSend : Nat)
    (outcome : CallOutcome) (tResolve : Nat) : SessionState :=
  match handleSend1 s messageText tSend with
  | (s1, some _) => handleSendResolve s1 outcome tResolve
  | (s1, none) => s1

/-- A follow-up chip as rendered by `ChatMessage` (lines 99-107): its
visible label and the argument its click handler would pass to
`handleQuickReply` (`none` when the element has no click handler). -/
structure ChipView where
  label : String
  action : Option String
deriving DecidableEq, Repr

/-- The visual output of `ChatMessage` for one message (lines 54-126):
alignment by role, the text of the confidence badge when shown, whether
the escalation badge is shown, and the follow-up chips. -/
structure RenderedMessage where
  alignLeft : Bool
  content : String
  confidenceBadge : Option String
  escalationBadge : Bool
  followUpChips : List ChipView
deriving DecidableEq, Repr

/-- The `ChatMessage` renderer (lines 54-126): agent bubbles align left;
the confidence badge is shown only for agent messages with defined
confidence and reads `Math.round(confidence * 100) + "% confident"`; the
escalation badge is shown when `requiresEscalation` is truthy; follow-up
chips are plain `Badge` elements (no `onClick`), one per question, shown
only when the list is defined and non-empty. -/
def render (m : Message) : RenderedMessage :=
  let isAgent : Bool := m.role = Role.agent
  { alignLeft := isAgent
  , content := m.content
  , confidenceBadge :=
      if isAgent then
        m.confidence.map (fun c => toString (jsRound (c * 100)) ++ "% confident")
      else none
  , escalationBadge := isAgent && (m.requiresEscalation == some true)
  , followUpChips :=
      if isAgent then
        match m.followUpQuestions with
        | some qs =>
          if qs.length > 0 then qs.map (fun q => { label := q, action := none })
          else []
        | none => []
      else [] }

/-- The one-time starter-question row of the footer (lines 340-357): shown
only while the message list holds exactly the welcome message and no call
is loading; each button click calls `handleQuickReply` with its
question. -/
def starterRow (s : SessionState) : List ChipView :=
  if s.messages.length = 1 ∧ s.loading = false then
    STARTER_QUESTIONS.map (fun q => { label := q, action := some q })
  else []

/-- The effective text a call to `handleSend` works with: the explicit
argument when present and non-empty, otherwise the trimmed pending
input. -/
def effectiveText (s : SessionState) (messageText : Option String) : String :=
  jsOrText messageText (jsTrim s.input)

/-- Every resolution path appends exactly one agent-role message, whose
identifier is `(now + 1).toString`. -/
theorem resolveAppendsAgent (s1 : SessionState) (outcome : CallOutcome)
    (t2 : Nat) :
    ∃ a : Message,
      (handleSendResolve s1 outcome t2).messages = s1.messages ++ [a] ∧
      a.role = Role.agent ∧ a.id = toString (t2 + 1) := by
  cases outcome with
  | resolved success status message result errField =>
    by_cases hc : success = true ∧ status = "success"
    · exact ⟨agentMessageOf result t2, by simp [handleSendResolve, hc], rfl, rfl⟩
    · exact ⟨apologyMessage t2, by simp [handleSendResolve, hc], rfl, rfl⟩
  | rejected => exact ⟨troubleMessage t2, by simp [handleSendResolve], rfl, rfl⟩

/-- From a non-busy state with a non-empty effective text, the synchronous
phase of `handleSend` replaces the state with one whose fields are fixed
and dispatches the call. -/
theorem handleSend1_dispatch (s : SessionState) (mt : Option String)
    (t1 : Nat) (hbusy : s.loading = false) (hne : effectiveText s mt ≠ "") :
    handleSend1 s mt t1 =
      ({ messages := s.messages ++ [userMessageOf (effectiveText s mt) t1]
       , input := ""
       , loading := true
       , error := none }, some (effectiveText s mt)) := by
  simp only [effectiveText] at hne
  have hguard : ¬ (jsOrText mt (jsTrim s.input) = "" ∨ s.loading = true) := by
    rw [not_or]
    exact ⟨hne, by simp [hbusy]⟩
  simp only [handleSend1]
  rw [if_neg hguard]
  rfl

/-- C1: from an idle (non-busy) state with an input whose trimmed text is
non-empty, `sendMessage` appends exactly one user message synchronously
and dispatches the call, and every settlement of that call — success,
error envelope or rejection — appends exactly one agent message. -/
theorem sendMessage_appends_one_user_one_agent
    (s : SessionState) (mt : Option String) (t1 t2 : Nat)
    (outcome : CallOutcome) (hbusy : s.loading = false)
    (ht : jsTrim (effectiveText s mt) ≠ "") :
    ∃ u a : Message,
      (handleSend1 s mt t1).1.messages = s.messages ++ [u] ∧
      u.role = Role.user ∧
      (handleSend1 s mt t1).2.isSome = true ∧
      (handleSendResolve (handleSend1 s mt t1).1 outcome t2).messages
        = (handleSend1 s mt t1).1.messages ++ [a] ∧
      a.role = Role.agent := by
  have hne : effectiveText s mt ≠ "" := by
    intro h
    apply ht
    rw [h]
    rfl
  obtain ⟨a, ha, har, -⟩ :=
    resolveAppendsAgent (handleSend1 s mt t1).1 outcome t2
  refine ⟨userMessageOf (effectiveText s mt) t1, a, ?_, rfl, ?_, ha, har⟩
  · rw [handleSend1_dispatch s mt t1 hbusy hne]
  · rw [handleSend1_dispatch s mt t1 hbusy hne]
    rfl

/-- Witness for `sendMessage_appends_one_user_one_agent`: a concrete send
of `"hi"` from the mounted state, settled by a rejection. -/
theorem sendMessage_appends_one_user_one_agent_witness :
    (initSession 0).loading = false ∧
    jsTrim (effectiveText (initSession 0) (some "hi")) ≠ "" ∧
    ∃ u a : Message,
      (handleSend1 (initSession 0) (some "hi") 5).1.messages
        = (initSession 0).messages ++ [u] ∧
      u.role = Role.user ∧
      (handleSend1 (initSession 0) (some "hi") 5).2.isSome = true ∧
      (handleSendResolve (handleSend1 (initSession 0) (some "hi") 5).1
          CallOutcome.rejected 9).messages
        = (handleSend1 (initSession 0) (some "hi") 5).1.messages ++ [a] ∧
      a.role = Role.agent :=
  ⟨rfl, by decide,
   sendMessage_appends_one_user_one_agent (initSession 0) (some "hi") 5 9
     CallOutcome.rejected rfl (by decide)⟩

/-- C2: while the busy flag is set, a further call to `sendMessage` changes
no state and issues no outbound call. -/
theorem sendMessage_noop_while_busy (s : SessionState) (mt : Option String)
    (t : Nat) (h : s.loading = true) :
    handleSend1 s mt t = (s, none) := by
  simp [handleSend1, h]

/-- Witness for `sendMessage_noop_while_busy` at a concrete busy state. -/
theorem sendMessage_noop_while_busy_witness :
    handleSend1 { messages := [], input := "x", loading := true, error := none }
      (some "hello") 7
      = ({ messages := [], input := "x", loading := true, error := none }, none) :=
  sendMessage_noop_while_busy _ (some "hello") 7 rfl

/-- C4: the busy flag is true exactly while a call is in flight — set on
dispatch (which only happens from a non-busy state), unchanged on a
refused send, cleared by every resolution path, and false initially. -/
theorem busy_flag_lifecycle (s s1 : SessionState) (mt : Option String)
    (t t2 : Nat) (outcome : CallOutcome) :
    ((handleSend1 s mt t).2.isSome →
      (handleSend1 s mt t).1.loading = true ∧ s.loading = false) ∧
    ((handleSend1 s mt t).2 = none → (handleSend1 s mt t).1 = s) ∧
    (handleSendResolve s1 outcome t2).loading = false ∧
    (initSession t).loading = false := by
  refine ⟨?_, ?_, ?_, rfl⟩
  · intro hsome
    simp only [handleSend1] at hsome ⊢
    by_cases hg : jsOrText mt (jsTrim s.input) = "" ∨ s.loading = true
    · rw [if_pos hg] at hsome
      simp at hsome
    · rw [if_neg hg] at hsome ⊢
      refine ⟨rfl, ?_⟩
      rcases not_or.mp hg with ⟨-, h2⟩
      simpa using h2
  · intro hnone
    simp only [handleSend1] at hnone ⊢
    by_cases hg : jsOrText mt (jsTrim s.input) = "" ∨ s.loading = true
    · rw [if_pos hg]
    · rw [if_neg hg] at hnone
      simp at hnone
  · cases outcome with
    | resolved success status message result errField =>
      by_cases hc : success = true ∧ status = "success"
      · simp [handleSendResolve, hc]
      · simp [handleSendResolve, hc]
    | rejected => simp [handleSendResolve]

/-- Witness for `busy_flag_lifecycle`: the dispatch clause at a concrete
non-busy state that really dispatches. -/
theorem busy_flag_lifecycle_witness :
    (handleSend1 (initSession 0) (some "hi") 5).1.loading = true ∧
      (initSession 0).loading = false :=
  (busy_flag_lifecycle (initSession 0) (initSession 0) (some "hi") 5 0
    CallOutcome.rejected).1 (by decide)

/-- C3: on an agent-reported error envelope (`success:true`,
`status:"error"`), the error becomes
`response.message || result.error || 'Failed to get response'` — the
contained message itself whenever it is present and non-empty — and the
apology message is appended; on a rejection the error becomes the fixed
network-error string and the trouble-connecting message is appended; both
synthetic messages carry the fixed texts with escalation forced true, and
the busy flag is false afterwards. -/
theorem sendMessage_error_handling (s : SessionState) (m : String)
    (msgOpt errF : Option String) (res : AgentResult) (t : Nat) :
    (handleSendResolve s (CallOutcome.resolved true "error" msgOpt res errF) t
      = { s with
            error := some (jsStrOr msgOpt (jsStrOr errF "Failed to get response"))
          , messages := s.messages ++ [apologyMessage t]
          , loading := false }) ∧
    (msgOpt = some m → m ≠ "" →
      (handleSendResolve s (CallOutcome.resolved true "error" msgOpt res errF) t).error
        = some m) ∧
    (handleSendResolve s CallOutcome.rejected t
      = { s with
            error := some "Network error occurred"
          , messages := s.messages ++ [troubleMessage t]
          , loading := false }) ∧
    (apologyMessage t).content = apologyText ∧
    (apologyMessage t).requiresEscalation = some true ∧
    (apologyMessage t).role = Role.agent ∧
    (troubleMessage t).content = troubleText ∧
    (troubleMessage t).requiresEscalation = some true ∧
    (troubleMessage t).role = Role.agent := by
  have hc : ¬ ((true : Bool) = true ∧ ("error" : String) = "success") := by
    decide
  refine ⟨?_, ?_, ?_, rfl, rfl, rfl, rfl, rfl, rfl⟩
  · simp [handleSendResolve, hc]
  · intro h1 h2
    simp [handleSendResolve, hc, h1, jsStrOr, h2]
  · simp [handleSendResolve]

/-- Witness for `sendMessage_error_handling`: the spec scenario where the
agent reports `status:"error"` with message `"rate limited"`. -/
theorem sendMessage_error_handling_witness :
    (handleSendResolve (initSession 0)
        (CallOutcome.resolved true "error" (some "rate limited")
          { answer := ""
          , sources := []
          , confidence := 0
          , follow_up_questions := []
          , requires_escalation := false } none) 7).error
      = some "rate limited" :=
  (sendMessage_error_handling (initSession 0) "rate limited"
    (some "rate limited") none
    { answer := ""
    , sources := []
    , confidence := 0
    , follow_up_questions := []
    , requires_escalation := false } 7).2.1 rfl (by decide)

/-- The result payload of the spec scenario: confidence 0.92, one
follow-up question, no escalation. -/
def trackResult : AgentResult :=
  { answer := "You can track your order from your account page."
  , sources := []
  , confidence := 92 / 100
  , follow_up_questions := ["Q1"]
  , requires_escalation := false }

/-- C5: a success envelope appends the agent message whose fields equal
the payload fields 1:1, and the scenario payload with confidence 0.92
renders a `"92% confident"` badge, no escalation badge and exactly one
follow-up chip. -/
theorem success_path_maps_payload (s : SessionState) (res : AgentResult)
    (msgOpt errF : Option String) (t : Nat) :
    (handleSendResolve s (CallOutcome.resolved true "success" msgOpt res errF) t
      = { s with
            messages := s.messages ++ [agentMessageOf res t]
          , loading := false }) ∧
    (agentMessageOf res t).content = res.answer ∧
    (agentMessageOf res t).confidence = some res.confidence ∧
    (agentMessageOf res t).sources = some res.sources ∧
    (agentMessageOf res t).followUpQuestions = some res.follow_up_questions ∧
    (agentMessageOf res t).requiresEscalation = some res.requires_escalation ∧
    (agentMessageOf res t).role = Role.agent ∧
    render (agentMessageOf trackResult t)
      = { alignLeft := true
        , content := trackResult.answer
        , confidenceBadge := some "92% confident"
        , escalationBadge := false
        , followUpChips := [{ label := "Q1", action := none }] } := by
  have hcond : ((true : Bool) = true ∧ ("success" : String) = "success") := by
    decide
  refine ⟨?_, rfl, rfl, rfl, rfl, rfl, rfl, ?_⟩
  · simp [handleSendResolve, hcond]
  · have hj : jsRound (92 : ℚ) = 92 := by norm_num [jsRound]
    simp [render, agentMessageOf, trackResult, hj]
    rfl

/-- C10: both synthetic failure messages carry no confidence, no sources
and no follow-up questions; the renderer therefore shows neither a
confidence badge nor follow-up chips for them — only the fixed text and
the escalation badge — and the two failure paths append exactly these
messages. -/
theorem failure_messages_render_plain (s : SessionState)
    (msgOpt errF : Option String) (res : AgentResult) (t : Nat) :
    (handleSendResolve s (CallOutcome.resolved true "error" msgOpt res errF) t).messages
      = s.messages ++ [apologyMessage t] ∧
    (handleSendResolve s CallOutcome.rejected t).messages
      = s.messages ++ [troubleMessage t] ∧
    (apologyMessage t).confidence = none ∧
    (apologyMessage t).sources = none ∧
    (apologyMessage t).followUpQuestions = none ∧
    (troubleMessage t).confidence = none ∧
    (troubleMessage t).sources = none ∧
    (troubleMessage t).followUpQuestions = none ∧
    render (apologyMessage t)
      = { alignLeft := true
        , content := apologyText
        , confidenceBadge := none
        , escalationBadge := true
        , followUpChips := [] } ∧
    render (troubleMessage t)
      = { alignLeft := true
        , content := troubleText
        , confidenceBadge := none
        , escalationBadge := true
        , followUpChips := [] } := by
  have hc : ¬ ((true : Bool) = true ∧ ("error" : String) = "success") := by
    decide
  refine ⟨?_, ?_, rfl, rfl, rfl, rfl, rfl, rfl, rfl, rfl⟩
  · simp [handleSendResolve, hc]
  · simp [handleSendResolve]

/-- C6 counterexample: `sendMessage` called with the whitespace-only
string `" "` from the freshly mounted idle state does not leave the
message list unchanged — it appends a user message and dispatches an
outbound call carrying `" "` verbatim. -/
theorem sendMessage_whitespace_cx :
    (handleSend1 (initSession 0) (some " ") 5).1.messages
        ≠ (initSession 0).messages ∧
    (handleSend1 (initSession 0) (some " ") 5).2 = some " " := by
  constructor
  · intro h
    have := congrArg List.length h
    simp [handleSend1, initSession, jsOrText] at this
  · rfl

/-- C6 amended: a send is a no-op exactly when the effective text — the
explicit argument if non-empty, otherwise the trimmed pending input — is
empty; a non-empty effective text (including a whitespace-only explicit
argument) is dispatched verbatim from a non-busy state. -/
theorem sendMessage_blank_amended (s : SessionState) (mt : Option String)
    (t : Nat) :
    (effectiveText s mt = "" → handleSend1 s mt t = (s, none)) ∧
    (s.loading = false → effectiveText s mt ≠ "" →
      (handleSend1 s mt t).2 = some (effectiveText s mt)) := by
  constructor
  · intro h
    simp [handleSend1, effectiveText] at h ⊢
    simp [h]
  · intro hb h
    simp only [effectiveText] at h
    simp [handleSend1, effectiveText, h, hb]

/-- Witness for `sendMessage_blank_amended`: the no-op clause at the
mounted state with a blank pending input, and the dispatch clause for an
explicit whitespace-only argument. -/
theorem sendMessage_blank_amended_witness :
    handleSend1 (initSession 0) none 5 = (initSession 0, none) ∧
    (handleSend1 (initSession 0) (some " ") 5).2 = some (effectiveText (initSession 0) (some " ")) :=
  ⟨(sendMessage_blank_amended (initSession 0) none 5).1 (by decide),
   (sendMessage_blank_amended (initSession 0) (some " ") 5).2 (by decide) (by decide)⟩

/-- C7 counterexample: `quickReply " hi "` from the mounted idle state
dispatches the outbound call with the question verbatim, which differs
from its trimmed form — so the call is not issued with the trimmed
text. -/
theorem quickReply_untrimmed_cx :
    (handleQuickReply (initSession 0) " hi " 5).2 = some " hi " ∧
    (some " hi " : Option String) ≠ some (jsTrim " hi ") := by
  constructor
  · rfl
  · decide

/-- C7 amended: `quickReply question` is definitionally
`sendMessage question`, and a non-empty explicit question is dispatched
verbatim (untrimmed); only the argument-free path dispatches the trimmed
pending input. -/
theorem quickReply_amended (s : SessionState) (q : String) (t : Nat) :
    handleQuickReply s q t = handleSend1 s (some q) t ∧
    (q ≠ "" → s.loading = false → (handleQuickReply s q t).2 = some q) ∧
    (s.loading = false → jsTrim s.input ≠ "" →
      (handleSend1 s none t).2 = some (jsTrim s.input)) := by
  refine ⟨rfl, ?_, ?_⟩
  · intro hq hb
    simp [handleQuickReply, handleSend1, jsOrText, hq, hb]
  · intro hb hi
    simp [handleSend1, jsOrText, hi, hb]

/-- Witness for `quickReply_amended` at a concrete question and a concrete
state with a non-blank pending input. -/
theorem quickReply_amended_witness :
    (handleQuickReply (initSession 0) " hi " 5).2 = some " hi " ∧
    (handleSend1 { messages := [], input := " yo ", loading := false, error := none }
        none 5).2
      = some (jsTrim " yo ") :=
  ⟨(quickReply_amended (initSession 0) " hi " 5).2.1 (by decide) (by decide),
   (quickReply_amended { messages := [], input := " yo ", loading := false, error := none }
      "q" 5).2.2 (by decide) (by decide)⟩

/-- A minimal successful result payload, used in the identifier-collision
trace. -/
def okResult : AgentResult :=
  { answer := "ok"
  , sources := []
  , confidence := 1
  , follow_up_questions := []
  , requires_escalation := false }

/-- C8 counterexample: identifiers come from `Date.now()` (send) and
`Date.now() + 1` (settlement), so a send one millisecond after a
settlement reuses the settlement message id.  Sending `"hi"` at time 1000,
resolving at time 1000 (agent id `"1001"`), then sending `"yo"` at time
1001 (user id `"1001"`) yields a duplicated identifier. -/
theorem message_ids_collision_cx :
    ¬ (((handleSend1 (sendCycle (initSession 0) (some "hi") 1000
          (CallOutcome.resolved true "success" none okResult none) 1000)
        (some "yo") 1001).1.messages.map Message.id).Nodup) := by
  decide

/-- C8 amended: within one send cycle, message identifiers stay pairwise
distinct and old messages keep their display positions, provided the
freshly generated identifier strings (`toString` of the send clock and of
the settlement clock plus one) do not collide with each other or with any
existing identifier — which the raw millisecond clock does not by itself
guarantee. -/
theorem message_ids_nodup_amended (s : SessionState) (mt : Option String)
    (t1 t2 : Nat) (outcome : CallOutcome)
    (h : (s.messages.map Message.id).Nodup)
    (h1 : toString t1 ∉ s.messages.map Message.id)
    (h2 : toString (t2 + 1) ∉ s.messages.map Message.id)
    (h3 : toString (t2 + 1) ≠ toString t1) :
    ((sendCycle s mt t1 outcome t2).messages.map Message.id).Nodup ∧
    (sendCycle s mt t1 outcome t2).messages.take s.messages.length
      = s.messages := by
  unfold sendCycle
  by_cases hg : jsOrText mt (jsTrim s.input) = "" ∨ s.loading = true
  · have hn : handleSend1 s mt t1 = (s, none) := by
      simp only [handleSend1]
      rw [if_pos hg]
    rw [hn]
    exact ⟨h, List.take_length s.messages⟩
  · have hd : handleSend1 s mt t1 =
        ({ messages := s.messages ++ [userMessageOf (jsOrText mt (jsTrim s.input)) t1]
         , input := ""
         , loading := true
         , error := none }, some (jsOrText mt (jsTrim s.input))) := by
      simp only [handleSend1]
      rw [if_neg hg]
    rw [hd]
    obtain ⟨a, ha, -, haid⟩ := resolveAppendsAgent
      { messages := s.messages ++ [userMessageOf (jsOrText mt (jsTrim s.input)) t1]
      , input := ""
      , loading := true
      , error := none } outcome t2
    simp only at ha
    constructor
    · rw [ha, List.append_assoc]
      simp only [List.map_append, List.map_cons, List.map_nil]
      rw [List.nodup_append]
      refine ⟨h, ?_, ?_⟩
      · simp [userMessageOf, haid]
        exact fun hx => h3 hx.symm
      · intro x hx
        simp [userMessageOf, haid]
        constructor
        · intro hx1
          exact h1 (hx1 ▸ hx)
        · intro hx2
          exact h2 (hx2 ▸ hx)
    · rw [ha, List.append_assoc]
      exact List.take_left s.messages _

/-- Witness for `message_ids_nodup_amended`: one cycle from the mounted
state with well-separated clock readings. -/
theorem message_ids_nodup_amended_witness :
    ((sendCycle (initSession 0) (some "hi") 1000 CallOutcome.rejected 1002).messages.map
        Message.id).Nodup ∧
    (sendCycle (initSession 0) (some "hi") 1000 CallOutcome.rejected 1002).messages.take
        (initSession 0).messages.length
      = (initSession 0).messages :=
  message_ids_nodup_amended (initSession 0) (some "hi") 1000 1002
    CallOutcome.rejected (by decide) (by decide) (by decide) (by decide)

/-- An agent message with a single follow-up question, used to exhibit the
behaviour of the rendered follow-up chips. -/
def chipDemoMessage : Message :=
  { id := "m"
  , role := Role.agent
  , content := "hello"
  , timestamp := 0
  , confidence := none
  , sources := none
  , followUpQuestions := some ["Q1"]
  , requiresEscalation := none }

/-- C9 counterexample: the chip rendered for follow-up question `"Q1"` is
a plain badge with no click handler — selecting it does not trigger
`quickReply "Q1"`. -/
theorem followup_chips_inert_cx :
    (render chipDemoMessage).followUpChips
      = [{ label := "Q1", action := none }] ∧
    ({ label := "Q1", action := none } : ChipView).action ≠ some "Q1" := by
  exact ⟨rfl, by decide⟩

/-- C9 amended: for an agent message with a non-empty follow-up list the
renderer produces exactly one chip per question, labelled with that
question, but the chips carry no click action; only the starter-question
row of the footer wires its buttons to `quickReply`. -/
theorem followup_chips_amended (m : Message) (qs : List String)
    (hr : m.role = Role.agent) (hq : m.followUpQuestions = some qs)
    (hne : qs ≠ []) :
    (render m).followUpChips.map ChipView.label = qs ∧
    (∀ c ∈ (render m).followUpChips, c.action = none) ∧
    (∀ s : SessionState, ∀ c ∈ starterRow s, c.action = some c.label) := by
  have hlen : 0 < qs.length := List.length_pos.mpr hne
  refine ⟨?_, ?_, ?_⟩
  · simp only [render, hr, hq]
    simp [hlen, Function.comp]
    exact List.map_id qs
  · intro c hc
    simp [render, hr, hq, hlen, List.mem_map] at hc
    obtain ⟨q, -, rfl⟩ := hc
    rfl
  · intro s c hc
    unfold starterRow at hc
    split at hc
    · simp [List.mem_map] at hc
      obtain ⟨q, -, rfl⟩ := hc
      rfl
    · simp at hc

/-- Witness for `followup_chips_amended` at the one-question demo
message. -/
theorem followup_chips_amended_witness :
    (render chipDemoMessage).followUpChips.map ChipView.label = ["Q1"] ∧
    (∀ c ∈ (render chipDemoMessage).followUpChips, c.action = none) ∧
    (∀ s : SessionState, ∀ c ∈ starterRow s, c.action = some c.label) :=
  followup_chips_amended chipDemoMessage ["Q1"] rfl rfl (by decide)

end SupportChat
